import Mathlib

/-!
Shallow embedding of the user-operation construction and sponsorship pipeline
of the base-paymaster example repository.

The authoritative source is the user-operation library (the `AsHex` variants
of `formatAsHex`, `bufferUserOpWithVerificationGas`,
`addPaymasterAndDataToUserOp`, `packUserOp`, `computeUserOpHash`, `signUserOp`)
together with the constants module and the `onMint` pipeline that composes the
stages.  JavaScript hex strings are modelled as `List Char`, byte sequences as
`List Nat`, and the external keccak256 function is a parameter
`keccak : List Nat → List Nat` (bytes in, 32-byte digest out).
-/

/-- A hexadecimal digit in either case, as accepted by viem's `isHex`
(regex `0x[0-9a-fA-F]*`). -/
def isHexDigit (c : Char) : Bool :=
  decide (48 ≤ c.toNat ∧ c.toNat ≤ 57) ||
  decide (97 ≤ c.toNat ∧ c.toNat ≤ 102) ||
  decide (65 ≤ c.toNat ∧ c.toNat ≤ 70)

/-- A canonical (lowercase) hexadecimal digit. -/
def isCanonicalHexDigit (c : Char) : Bool :=
  decide (48 ≤ c.toNat ∧ c.toNat ≤ 57) ||
  decide (97 ≤ c.toNat ∧ c.toNat ≤ 102)

/-- viem's `isHex` check on a string: `0x` followed by hex digits of either
case. -/
def isHex : List Char → Bool
  | c0 :: c1 :: rest => c0 == '0' && c1 == 'x' && rest.all isHexDigit
  | _ => false

/-- A canonical `0x`-prefixed lowercase hexadecimal string. -/
def isCanonicalHex : List Char → Bool
  | c0 :: c1 :: rest => c0 == '0' && c1 == 'x' && rest.all isCanonicalHexDigit
  | _ => false

/-- Numeric value of one hexadecimal digit (`0`-`9`, `a`-`f`, `A`-`F`). -/
def hexDigitVal (c : Char) : Nat :=
  if c.toNat ≤ 57 then c.toNat - 48
  else if 97 ≤ c.toNat then c.toNat - 87
  else c.toNat - 55

/-- `BigInt("0x…")` on a hex string: value of the digits after the `0x`
prefix.  (The pipeline only ever applies this to `0x`-prefixed strings;
other shapes are mapped to 0 in the model.) -/
def hexToNat : List Char → Nat
  | '0' :: 'x' :: ds => ds.foldl (fun a c => a * 16 + hexDigitVal c) 0
  | _ => 0

/-- Value of an optional hex-string field.  The source asserts presence with
`!` before converting; claims about the hashing stages only quantify over
operations whose optional fields are present, where this agrees with the
source. -/
def hexToNatOpt (v : Option (List Char)) : Nat :=
  hexToNat (v.getD [])

/-- Bytes denoted by a run of hex digits, two digits per byte. -/
def hexPairBytes : List Char → List Nat
  | a :: b :: rest => (hexDigitVal a * 16 + hexDigitVal b) :: hexPairBytes rest
  | [a] => [hexDigitVal a]
  | [] => []

/-- Byte sequence denoted by a `0x`-prefixed hex string. -/
def hexToBytes : List Char → List Nat
  | '0' :: 'x' :: ds => hexPairBytes ds
  | _ => []

/-- viem's `toHex` on a non-negative integer: `0x` followed by the minimal
lowercase hex digits (`0x0` for zero). -/
def toHexChars (n : Nat) : List Char :=
  '0' :: 'x' :: Nat.toDigits 16 n

/-- viem's `toHex` on a byte: exactly two lowercase hex digits. -/
def byteToHexChars (b : Nat) : List Char :=
  [Nat.digitChar (b / 16 % 16), Nat.digitChar (b % 16)]

/-- viem's `toHex` on a `Uint8Array`: `0x` then two digits per byte. -/
def bytesToHexChars (bs : List Nat) : List Char :=
  '0' :: 'x' :: (bs.map byteToHexChars).flatten

/-- The input domain of `formatAsHex`:
`undefined | string | Uint8Array | bigint | number` (the two numeric
JavaScript types collapse to one constructor). -/
inductive HexInput where
  | undef
  | str (s : List Char)
  | bytes (b : List Nat)
  | num (n : Nat)
deriving DecidableEq

/-- The error taxonomy of the normalizer: the source throws
`Error("Cannot convert a non-hex string to a hex string")`, the spec names
it `InvalidEncoding`. -/
inductive EncodingError where
  | invalidEncoding
deriving DecidableEq

/-- `formatAsHex`: absent propagates, hex strings are returned unchanged,
non-hex strings throw, bytes and integers are hex-encoded. -/
def formatAsHex : HexInput → Except EncodingError (Option (List Char))
  | .undef => .ok none
  | .str s => if isHex s then .ok (some s) else .error .invalidEncoding
  | .bytes b => .ok (some (bytesToHexChars b))
  | .num n => .ok (some (toHexChars n))

/-- `AsHex<UserOperationStruct>`: the user operation with every field a hex
string.  The five gas/fee fields are optional (the source's `formatAsHex`
without `!`), the rest are required. -/
structure HexUserOp where
  sender : List Char
  nonce : List Char
  initCode : List Char
  callData : List Char
  callGasLimit : Option (List Char)
  verificationGasLimit : Option (List Char)
  preVerificationGas : Option (List Char)
  maxFeePerGas : Option (List Char)
  maxPriorityFeePerGas : Option (List Char)
  paymasterAndData : List Char
  signature : List Char
deriving DecidableEq

/-- `PRE_VERIFICATION_GAS_BUFFER` from the constants module. -/
def PRE_VERIFICATION_GAS_BUFFER : Nat := 2600

/-- `VERIFICATION_GAS_LIMIT_BUFFER` from the constants module. -/
def VERIFICATION_GAS_LIMIT_BUFFER : Nat := 16000

/-- `BASE_GOERLI_ENTRYPOINT_ADDRESS` from the constants module. -/
def BASE_GOERLI_ENTRYPOINT_ADDRESS : List Char :=
  "0x5FF137D4b0FDCD49DcA30c7CF57E578a026d2789".data

/-- `baseGoerli.id`, the chain identifier. -/
def baseGoerliChainId : Nat := 84531

/-- `bufferUserOpWithVerificationGas` (the `AsHex` variant): adds the two
buffer constants to the two gas fields when they are truthy (present and
non-empty, per JavaScript truthiness of the conditional expression), yields
`undefined` otherwise, and spreads every other field unchanged. -/
def bufferUserOpWithVerificationGas (userOp : HexUserOp) : HexUserOp :=
  { userOp with
    preVerificationGas :=
      match userOp.preVerificationGas with
      | some s =>
          if s.isEmpty then none
          else some (toHexChars (hexToNat s + PRE_VERIFICATION_GAS_BUFFER))
      | none => none
    verificationGasLimit :=
      match userOp.verificationGasLimit with
      | some s =>
          if s.isEmpty then none
          else some (toHexChars (hexToNat s + VERIFICATION_GAS_LIMIT_BUFFER))
      | none => none }

/-- The JSON-RPC request `addPaymasterAndDataToUserOp` issues:
`eth_paymasterAndDataForUserOperation` with params
`[userOp, entryPoint, toHex(chainId)]`. -/
structure PaymasterRequest where
  userOp : HexUserOp
  entryPoint : List Char
  chainId : List Char
deriving DecidableEq

/-- The request `addPaymasterAndDataToUserOp` sends for a given operation. -/
def paymasterRequestFor (userOp : HexUserOp) : PaymasterRequest :=
  { userOp := userOp
    entryPoint := BASE_GOERLI_ENTRYPOINT_ADDRESS
    chainId := toHexChars baseGoerliChainId }

/-- `addPaymasterAndDataToUserOp`: issue the paymaster request through the
transport; on success spread the operation with `paymasterAndData` set to the
response verbatim, on transport error propagate the error.  The transport's
error type is abstract: the source rethrows whatever the RPC client raises. -/
def addPaymasterAndDataToUserOp {ε : Type} (userOp : HexUserOp)
    (rpcRequest : PaymasterRequest → Except ε (List Char)) :
    Except ε HexUserOp :=
  match rpcRequest (paymasterRequestFor userOp) with
  | .error e => .error e
  | .ok paymasterResponse =>
      .ok { userOp with paymasterAndData := paymasterResponse }

/-- Big-endian base-256 encoding of `n % 256^w` in exactly `w` bytes: the
content of one 32-byte ABI slot when `w = 32`. -/
def beBytes : Nat → Nat → List Nat
  | 0, _ => []
  | w + 1, n => (n / 256 ^ w % 256) :: beBytes w n

/-- `packUserOp`: ABI-encode the ten core fields as a fixed-width tuple
(`address`, seven `uint256`, with the three variable-length byte fields
replaced by their keccak256 digests in `bytes32` slots), in the source's
field order. -/
def packUserOp (keccak : List Nat → List Nat) (userOp : HexUserOp) :
    List Nat :=
  beBytes 32 (hexToNat userOp.sender)
  ++ beBytes 32 (hexToNat userOp.nonce)
  ++ keccak (hexToBytes userOp.initCode)
  ++ keccak (hexToBytes userOp.callData)
  ++ beBytes 32 (hexToNatOpt userOp.callGasLimit)
  ++ beBytes 32 (hexToNatOpt userOp.verificationGasLimit)
  ++ beBytes 32 (hexToNatOpt userOp.preVerificationGas)
  ++ beBytes 32 (hexToNatOpt userOp.maxFeePerGas)
  ++ beBytes 32 (hexToNatOpt userOp.maxPriorityFeePerGas)
  ++ keccak (hexToBytes userOp.paymasterAndData)

/-- `computeUserOpHash`: keccak256 of the ABI tuple
`(keccak256(packUserOp(op)), entryPoint, chainId)`. -/
def computeUserOpHash (keccak : List Nat → List Nat) (userOp : HexUserOp) :
    List Nat :=
  let packedUserOp := packUserOp keccak userOp
  let encodedUserOp :=
    keccak packedUserOp
    ++ beBytes 32 (hexToNat BASE_GOERLI_ENTRYPOINT_ADDRESS)
    ++ beBytes 32 baseGoerliChainId
  keccak encodedUserOp

/-- `signUserOp`: compute the operation hash, pass exactly that digest to the
external signing capability (`provider.signMessage`), and spread the
operation with only `signature` set to the result. -/
def signUserOp (keccak : List Nat → List Nat)
    (signMessage : List Nat → List Char) (userOp : HexUserOp) : HexUserOp :=
  { userOp with signature := signMessage (computeUserOpHash keccak userOp) }

/-- The sponsorship-and-signing segment of the `onMint` pipeline: buffer the
gas fields, query the paymaster, and only on success hash and sign.  The
second component records the digests passed to the signing capability, so
that "the signer was never invoked" is observable. -/
def sponsorAndSignUserOp {ε : Type}
    (rpcRequest : PaymasterRequest → Except ε (List Char))
    (keccak : List Nat → List Nat) (signMessage : List Nat → List Char)
    (userOp : HexUserOp) : Except ε HexUserOp × List (List Nat) :=
  match addPaymasterAndDataToUserOp (bufferUserOpWithVerificationGas userOp)
      rpcRequest with
  | .error e => (.error e, [])
  | .ok sponsored =>
      (.ok (signUserOp keccak signMessage sponsored),
       [computeUserOpHash keccak sponsored])

/-- One 32-byte ABI slot holding an `address` value. -/
def abiAddressSlot (n : Nat) : List Nat := beBytes 32 n

/-- One 32-byte ABI slot holding a `uint256` value. -/
def abiUint256Slot (n : Nat) : List Nat := beBytes 32 n

/-- One 32-byte ABI slot holding a `bytes32` value. -/
def abiBytes32Slot (b : List Nat) : List Nat := b

/-- The operation hash as the specification describes it: ABI-encode the ten
core fields in order, each variable-length byte field replaced by its
independent keccak256 digest; keccak the packed tuple; ABI-encode that digest
with the entry-point address and the chain identifier; keccak the second
tuple. -/
def specUserOpHash (keccak : List Nat → List Nat) (userOp : HexUserOp) :
    List Nat :=
  let firstTuple :=
    abiAddressSlot (hexToNat userOp.sender)
    ++ abiUint256Slot (hexToNat userOp.nonce)
    ++ abiBytes32Slot (keccak (hexToBytes userOp.initCode))
    ++ abiBytes32Slot (keccak (hexToBytes userOp.callData))
    ++ abiUint256Slot (hexToNatOpt userOp.callGasLimit)
    ++ abiUint256Slot (hexToNatOpt userOp.verificationGasLimit)
    ++ abiUint256Slot (hexToNatOpt userOp.preVerificationGas)
    ++ abiUint256Slot (hexToNatOpt userOp.maxFeePerGas)
    ++ abiUint256Slot (hexToNatOpt userOp.maxPriorityFeePerGas)
    ++ abiBytes32Slot (keccak (hexToBytes userOp.paymasterAndData))
  let secondTuple :=
    abiBytes32Slot (keccak firstTuple)
    ++ abiAddressSlot (hexToNat BASE_GOERLI_ENTRYPOINT_ADDRESS)
    ++ abiUint256Slot baseGoerliChainId
  keccak secondTuple

/-- Decode a big-endian byte list back to a natural number; inverse of
`beBytes` on bounded inputs. -/
def beDecode (l : List Nat) : Nat :=
  l.foldl (fun a b => a * 256 + b) 0

/-- The decoded values of the ten core fields: numeric fields as integers,
variable-length fields as byte sequences. -/
structure CoreFields where
  sender : Nat
  nonce : Nat
  initCode : List Nat
  callData : List Nat
  callGasLimit : Nat
  verificationGasLimit : Nat
  preVerificationGas : Nat
  maxFeePerGas : Nat
  maxPriorityFeePerGas : Nat
  paymasterAndData : List Nat
deriving DecidableEq

/-- The ten core fields of an operation as the decoded values the hash
construction consumes. -/
def decodedCoreFields (userOp : HexUserOp) : CoreFields :=
  { sender := hexToNat userOp.sender
    nonce := hexToNat userOp.nonce
    initCode := hexToBytes userOp.initCode
    callData := hexToBytes userOp.callData
    callGasLimit := hexToNatOpt userOp.callGasLimit
    verificationGasLimit := hexToNatOpt userOp.verificationGasLimit
    preVerificationGas := hexToNatOpt userOp.preVerificationGas
    maxFeePerGas := hexToNatOpt userOp.maxFeePerGas
    maxPriorityFeePerGas := hexToNatOpt userOp.maxPriorityFeePerGas
    paymasterAndData := hexToBytes userOp.paymasterAndData }

/-- All numeric core fields fit in a `uint256` ABI slot, as the encoder
requires. -/
def FieldsBounded (userOp : HexUserOp) : Prop :=
  hexToNat userOp.sender < 256 ^ 32 ∧ hexToNat userOp.nonce < 256 ^ 32 ∧
  hexToNatOpt userOp.callGasLimit < 256 ^ 32 ∧
  hexToNatOpt userOp.verificationGasLimit < 256 ^ 32 ∧
  hexToNatOpt userOp.preVerificationGas < 256 ^ 32 ∧
  hexToNatOpt userOp.maxFeePerGas < 256 ^ 32 ∧
  hexToNatOpt userOp.maxPriorityFeePerGas < 256 ^ 32

instance (userOp : HexUserOp) : Decidable (FieldsBounded userOp) := by
  unfold FieldsBounded; infer_instance

/-- An injective code of a byte list into one natural number. -/
def listCode : List Nat → Nat
  | [] => 0
  | a :: t => Nat.pair a (listCode t) + 1

/-- A concrete stand-in for keccak256 used by witnesses: injective and with
32-byte output (bytes modelled as naturals). -/
def testKeccak (l : List Nat) : List Nat :=
  listCode l :: List.replicate 31 0

/-- A concrete stand-in for the external signing capability. -/
def sampleSignMessage : List Nat → List Char :=
  fun digest => '0' :: 'x' :: (digest.map Nat.digitChar)

/-- The spec's end-to-end sample operation: nonce 0, empty initCode,
a no-argument call, `callGasLimit` 100000, `verificationGasLimit` 70000,
`preVerificationGas` 50000. -/
def sampleUserOp : HexUserOp :=
  { sender := "0x6527E5052de5521fE370AE5ec0aFCC6cD5a221de".data
    nonce := "0x0".data
    initCode := "0x".data
    callData := "0x1249c58b".data
    callGasLimit := some "0x186a0".data
    verificationGasLimit := some "0x11170".data
    preVerificationGas := some "0xc350".data
    maxFeePerGas := some "0x5f5e100".data
    maxPriorityFeePerGas := some "0x3b9aca00".data
    paymasterAndData := "0x".data
    signature := "0x".data }

/-- The sample operation with one bit of `callData` flipped. -/
def sampleUserOpFlipped : HexUserOp :=
  { sampleUserOp with callData := "0x1249c58a".data }

/-- The sample operation with both bufferable gas fields absent. -/
def sampleUserOpNoGas : HexUserOp :=
  { sampleUserOp with
    preVerificationGas := none
    verificationGasLimit := none }

/-- A transport that sponsors every request with a fixed payload. -/
def sampleTransportOk : PaymasterRequest → Except Unit (List Char) :=
  fun _ => .ok "0x1234abcd".data

/-- A transport that sponsors every request with the empty byte string. -/
def sampleTransportEmpty : PaymasterRequest → Except Unit (List Char) :=
  fun _ => .ok "0x".data

/-- A transport that raises on every request. -/
def sampleTransportFail : PaymasterRequest → Except Unit (List Char) :=
  fun _ => .error ()

/-! ## Theorems -/

/-- Helper: `beBytes w n` always has length `w`. -/
theorem beBytes_length (w : Nat) : ∀ n, (beBytes w n).length = w := by
  induction w with
  | zero => intro n; rfl
  | succ w ih => intro n; simp [beBytes, ih]

/-- Helper: base-256 splitting of a mod by a higher power. -/
theorem mod_pow_split (n w : Nat) :
    n % 256 ^ (w + 1) = 256 ^ w * (n / 256 ^ w % 256) + n % 256 ^ w := by
  have hx := Nat.div_add_mod (n % (256 ^ w * 256)) (256 ^ w)
  rw [Nat.mod_mul_right_div_self, Nat.mod_mul_right_mod] at hx
  calc n % 256 ^ (w + 1) = n % (256 ^ w * 256) := by rw [pow_succ]
    _ = 256 ^ w * (n / 256 ^ w % 256) + n % 256 ^ w := hx.symm

/-- Helper: folding the big-endian bytes of `n` reconstructs `n` modulo the
width. -/
theorem beBytes_foldl (w : Nat) : ∀ n acc,
    (beBytes w n).foldl (fun a b => a * 256 + b) acc =
      acc * 256 ^ w + n % 256 ^ w := by
  induction w with
  | zero => intro n acc; simp [beBytes, Nat.mod_one]
  | succ w ih =>
    intro n acc
    simp only [beBytes, List.foldl_cons]
    rw [ih]
    rw [mod_pow_split]
    ring

/-- Helper: `beDecode` inverts `beBytes` up to the width modulus. -/
theorem beDecode_beBytes (w n : Nat) : beDecode (beBytes w n) = n % 256 ^ w := by
  unfold beDecode
  rw [beBytes_foldl]
  simp

/-- Helper: `beBytes w` is injective below `256 ^ w`. -/
theorem beBytes_inj {w a b : Nat} (ha : a < 256 ^ w) (hb : b < 256 ^ w)
    (h : beBytes w a = beBytes w b) : a = b := by
  have := congrArg beDecode h
  rwa [beDecode_beBytes, beDecode_beBytes, Nat.mod_eq_of_lt ha,
    Nat.mod_eq_of_lt hb] at this

/-- Helper: `listCode` is injective. -/
theorem listCode_inj : ∀ x y : List Nat, listCode x = listCode y → x = y := by
  intro x
  induction x with
  | nil =>
    intro y h
    cases y with
    | nil => rfl
    | cons b u => simp [listCode] at h
  | cons a t ih =>
    intro y h
    cases y with
    | nil => simp [listCode] at h
    | cons b u =>
      simp only [listCode, Nat.add_right_cancel_iff] at h
      obtain ⟨h1, h2⟩ := Nat.pair_eq_pair.mp h
      rw [h1, ih u h2]

/-- Helper: the witness keccak stand-in is injective. -/
theorem testKeccak_inj : Function.Injective testKeccak := by
  intro x y h
  simp only [testKeccak, List.cons.injEq] at h
  exact listCode_inj x y h.1

/-- Helper: the witness keccak stand-in produces 32-byte digests. -/
theorem testKeccak_length : ∀ x, (testKeccak x).length = 32 := by
  intro x
  simp [testKeccak]

/-- Helper: a canonical lowercase hex string passes viem's `isHex` check. -/
theorem isHex_of_isCanonicalHex (s : List Char)
    (h : isCanonicalHex s = true) : isHex s = true := by
  cases s with
  | nil => simp [isCanonicalHex] at h
  | cons c0 t0 =>
    cases t0 with
    | nil => simp [isCanonicalHex] at h
    | cons c1 rest =>
      simp only [isCanonicalHex, Bool.and_eq_true, List.all_eq_true,
        beq_iff_eq] at h
      obtain ⟨⟨h0, h1⟩, hall⟩ := h
      simp only [isHex, Bool.and_eq_true, List.all_eq_true, beq_iff_eq,
        h0, h1, eq_self_iff_true, and_true, true_and]
      intro c hc
      have hcanon := hall c hc
      simp only [isCanonicalHexDigit, Bool.or_eq_true,
        decide_eq_true_eq] at hcanon
      simp only [isHexDigit, Bool.or_eq_true, decide_eq_true_eq]
      tauto

/-- Helper: `packUserOp` determines the decoded core fields when keccak is
injective with 32-byte output and the numeric fields fit their slots. -/
theorem packUserOp_inj (keccak : List Nat → List Nat)
    (hinj : Function.Injective keccak)
    (hlen : ∀ x, (keccak x).length = 32) {op1 op2 : HexUserOp}
    (hb1 : FieldsBounded op1) (hb2 : FieldsBounded op2)
    (h : packUserOp keccak op1 = packUserOp keccak op2) :
    decodedCoreFields op1 = decodedCoreFields op2 := by
  unfold packUserOp at h
  obtain ⟨h, hpmd⟩ := List.append_inj h (by simp [beBytes_length, hlen])
  obtain ⟨h, hmp⟩ := List.append_inj h (by simp [beBytes_length, hlen])
  obtain ⟨h, hmf⟩ := List.append_inj h (by simp [beBytes_length, hlen])
  obtain ⟨h, hpvg⟩ := List.append_inj h (by simp [beBytes_length, hlen])
  obtain ⟨h, hvgl⟩ := List.append_inj h (by simp [beBytes_length, hlen])
  obtain ⟨h, hcgl⟩ := List.append_inj h (by simp [beBytes_length, hlen])
  obtain ⟨h, hcall⟩ := List.append_inj h (by simp [beBytes_length, hlen])
  obtain ⟨h, hinit⟩ := List.append_inj h (by simp [beBytes_length, hlen])
  obtain ⟨hsender, hnonce⟩ := List.append_inj h (by simp [beBytes_length])
  obtain ⟨b1s, b1n, b1c, b1v, b1p, b1mf, b1mp⟩ := hb1
  obtain ⟨b2s, b2n, b2c, b2v, b2p, b2mf, b2mp⟩ := hb2
  unfold decodedCoreFields
  rw [beBytes_inj b1s b2s hsender, beBytes_inj b1n b2n hnonce,
    hinj hinit, hinj hcall, beBytes_inj b1c b2c hcgl,
    beBytes_inj b1v b2v hvgl, beBytes_inj b1p b2p hpvg,
    beBytes_inj b1mf b2mf hmf, beBytes_inj b1mp b2mp hmp, hinj hpmd]

/-- C1: for every fully sponsored, unsigned user operation, the operation
hash is computed by the exact two-stage construction: the ten core fields
are ABI-encoded as a fixed-width tuple in source order with the three
variable-length byte fields replaced by their independent keccak256 digests,
then the keccak256 of that packed tuple is ABI-encoded with the entry-point
address and the chain identifier and the keccak256 of the second tuple is
the final hash. -/
theorem computeUserOpHash_is_two_stage (keccak : List Nat → List Nat)
    (userOp : HexUserOp)
    (_hcgl : userOp.callGasLimit.isSome = true)
    (_hvgl : userOp.verificationGasLimit.isSome = true)
    (_hpvg : userOp.preVerificationGas.isSome = true)
    (_hmf : userOp.maxFeePerGas.isSome = true)
    (_hmp : userOp.maxPriorityFeePerGas.isSome = true) :
    computeUserOpHash keccak userOp = specUserOpHash keccak userOp := rfl

/-- Witness for C1 at the sample operation and the concrete keccak
stand-in. -/
theorem computeUserOpHash_is_two_stage_witness :
    computeUserOpHash testKeccak sampleUserOp =
      specUserOpHash testKeccak sampleUserOp :=
  computeUserOpHash_is_two_stage testKeccak sampleUserOp rfl rfl rfl rfl rfl

/-- C2: buffering an operation with present gas fields adds exactly 2600 to
`preVerificationGas` and exactly 16000 to `verificationGasLimit` and changes
no other field, and the paymaster request of the composed pipeline carries
exactly the post-buffer operation. -/
theorem bufferUserOp_adds_exact_buffers (userOp : HexUserOp)
    (p v : List Char)
    (hp : userOp.preVerificationGas = some p)
    (hv : userOp.verificationGasLimit = some v)
    (hpne : p ≠ []) (hvne : v ≠ []) :
    bufferUserOpWithVerificationGas userOp =
      { userOp with
        preVerificationGas :=
          some (toHexChars (hexToNat p + PRE_VERIFICATION_GAS_BUFFER))
        verificationGasLimit :=
          some (toHexChars (hexToNat v + VERIFICATION_GAS_LIMIT_BUFFER)) } ∧
    (paymasterRequestFor (bufferUserOpWithVerificationGas userOp)).userOp =
      bufferUserOpWithVerificationGas userOp := by
  have hpe : p.isEmpty = false := by
    cases p with
    | nil => exact absurd rfl hpne
    | cons a t => rfl
  have hve : v.isEmpty = false := by
    cases v with
    | nil => exact absurd rfl hvne
    | cons a t => rfl
  refine ⟨?_, rfl⟩
  simp [bufferUserOpWithVerificationGas, hp, hv, hpe, hve]

/-- Witness for C2 at the spec's scenario: 50000 and 70000 buffer to 52600
(`0xcd78`) and 86000 (`0x14ff0`), and exactly the post-buffer operation is
what the paymaster request carries. -/
theorem bufferUserOp_adds_exact_buffers_witness :
    (bufferUserOpWithVerificationGas sampleUserOp).preVerificationGas =
      some "0xcd78".data ∧
    (bufferUserOpWithVerificationGas sampleUserOp).verificationGasLimit =
      some "0x14ff0".data ∧
    (paymasterRequestFor
        (bufferUserOpWithVerificationGas sampleUserOp)).userOp =
      bufferUserOpWithVerificationGas sampleUserOp := by
  have h := bufferUserOp_adds_exact_buffers sampleUserOp "0xc350".data
    "0x11170".data rfl rfl (by decide) (by decide)
  refine ⟨?_, ?_, h.2⟩
  · rw [h.1]; decide
  · rw [h.1]; decide

/-- C3: when the paymaster transport raises instead of returning a
sponsorship payload, the pipeline yields the transport's error and the
signing capability is never invoked (no digest is computed and passed to
it). -/
theorem sponsorship_failure_blocks_signing {ε : Type}
    (rpcRequest : PaymasterRequest → Except ε (List Char))
    (keccak : List Nat → List Nat) (signMessage : List Nat → List Char)
    (userOp : HexUserOp) (e : ε)
    (h : rpcRequest (paymasterRequestFor
        (bufferUserOpWithVerificationGas userOp)) = .error e) :
    sponsorAndSignUserOp rpcRequest keccak signMessage userOp =
      (.error e, []) := by
  simp [sponsorAndSignUserOp, addPaymasterAndDataToUserOp, h]

/-- Witness for C3 at a concrete failing transport. -/
theorem sponsorship_failure_blocks_signing_witness :
    sponsorAndSignUserOp sampleTransportFail testKeccak sampleSignMessage
      sampleUserOp = (.error (), []) :=
  sponsorship_failure_blocks_signing sampleTransportFail testKeccak
    sampleSignMessage sampleUserOp () rfl

/-- C4: buffering leaves an absent `preVerificationGas` (respectively
`verificationGasLimit`) absent; it does not substitute zero plus the buffer
constant. -/
theorem bufferUserOp_propagates_absence (userOp : HexUserOp) :
    (userOp.preVerificationGas = none →
      (bufferUserOpWithVerificationGas userOp).preVerificationGas = none) ∧
    (userOp.verificationGasLimit = none →
      (bufferUserOpWithVerificationGas userOp).verificationGasLimit =
        none) := by
  constructor
  · intro h; simp [bufferUserOpWithVerificationGas, h]
  · intro h; simp [bufferUserOpWithVerificationGas, h]

/-- Witness for C4 at an operation with both gas fields absent. -/
theorem bufferUserOp_propagates_absence_witness :
    (bufferUserOpWithVerificationGas sampleUserOpNoGas).preVerificationGas =
      none ∧
    (bufferUserOpWithVerificationGas
        sampleUserOpNoGas).verificationGasLimit = none :=
  ⟨(bufferUserOp_propagates_absence sampleUserOpNoGas).1 rfl,
   (bufferUserOp_propagates_absence sampleUserOpNoGas).2 rfl⟩

/-- C5: whatever payload the transport returns, the sponsorship client
yields a new operation whose `paymasterAndData` is that payload verbatim and
whose every other field equals the input's (the input itself is a pure value
and is not mutated). -/
theorem addPaymaster_attaches_response_verbatim {ε : Type}
    (userOp : HexUserOp)
    (rpcRequest : PaymasterRequest → Except ε (List Char))
    (resp : List Char)
    (h : rpcRequest (paymasterRequestFor userOp) = .ok resp) :
    addPaymasterAndDataToUserOp userOp rpcRequest =
      .ok { userOp with paymasterAndData := resp } := by
  simp [addPaymasterAndDataToUserOp, h]

/-- Witness for C5 at a concrete sponsoring transport. -/
theorem addPaymaster_attaches_response_verbatim_witness :
    addPaymasterAndDataToUserOp sampleUserOp sampleTransportOk =
      .ok { sampleUserOp with paymasterAndData := "0x1234abcd".data } :=
  addPaymaster_attaches_response_verbatim sampleUserOp sampleTransportOk
    "0x1234abcd".data rfl

/-- C6: the signer passes to the external signing capability exactly the
digest produced by the operation hasher, and returns the input operation
with only the `signature` field set to the capability's result, all other
fields unchanged. -/
theorem signUserOp_signs_exact_digest (keccak : List Nat → List Nat)
    (signMessage : List Nat → List Char) (userOp : HexUserOp) :
    (signUserOp keccak signMessage userOp).signature =
      signMessage (computeUserOpHash keccak userOp) ∧
    (signUserOp keccak signMessage userOp).sender = userOp.sender ∧
    (signUserOp keccak signMessage userOp).nonce = userOp.nonce ∧
    (signUserOp keccak signMessage userOp).initCode = userOp.initCode ∧
    (signUserOp keccak signMessage userOp).callData = userOp.callData ∧
    (signUserOp keccak signMessage userOp).callGasLimit =
      userOp.callGasLimit ∧
    (signUserOp keccak signMessage userOp).verificationGasLimit =
      userOp.verificationGasLimit ∧
    (signUserOp keccak signMessage userOp).preVerificationGas =
      userOp.preVerificationGas ∧
    (signUserOp keccak signMessage userOp).maxFeePerGas =
      userOp.maxFeePerGas ∧
    (signUserOp keccak signMessage userOp).maxPriorityFeePerGas =
      userOp.maxPriorityFeePerGas ∧
    (signUserOp keccak signMessage userOp).paymasterAndData =
      userOp.paymasterAndData :=
  ⟨rfl, rfl, rfl, rfl, rfl, rfl, rfl, rfl, rfl, rfl, rfl⟩

/-- C7: a string input that is not a valid hexadecimal string makes
normalization fail with the `InvalidEncoding` error; it is never silently
reinterpreted. -/
theorem formatAsHex_rejects_non_hex (s : List Char)
    (h : isHex s = false) :
    formatAsHex (HexInput.str s) =
      .error EncodingError.invalidEncoding := by
  simp [formatAsHex, h]

/-- Witness for C7 at a concrete non-hex string. -/
theorem formatAsHex_rejects_non_hex_witness :
    formatAsHex (HexInput.str "nothex".data) =
      .error EncodingError.invalidEncoding :=
  formatAsHex_rejects_non_hex "nothex".data (by decide)

/-- C8: normalization returns an already-canonical hex string unchanged, so
normalizing a normalized value equals normalizing it once. -/
theorem formatAsHex_canonical_unchanged (s : List Char)
    (h : isCanonicalHex s = true) :
    formatAsHex (HexInput.str s) = .ok (some s) ∧
    (formatAsHex (HexInput.str s)).bind
        (fun v => formatAsHex (HexInput.str (v.getD []))) =
      formatAsHex (HexInput.str s) := by
  have hx := isHex_of_isCanonicalHex s h
  constructor
  · simp [formatAsHex, hx]
  · simp [formatAsHex, hx, Except.bind]

/-- Witness for C8 at a concrete canonical hex string. -/
theorem formatAsHex_canonical_unchanged_witness :
    formatAsHex (HexInput.str "0xabc123".data) =
      .ok (some "0xabc123".data) ∧
    (formatAsHex (HexInput.str "0xabc123".data)).bind
        (fun v => formatAsHex (HexInput.str (v.getD []))) =
      formatAsHex (HexInput.str "0xabc123".data) :=
  formatAsHex_canonical_unchanged "0xabc123".data (by decide)

/-- C9: two operations whose decoded core fields differ (in particular, two
operations differing in exactly one core field, such as one bit of
`callData`) have different final operation hashes, provided keccak is
injective with 32-byte digests and the numeric fields fit their `uint256`
slots: every field is bound into the digest. -/
theorem computeUserOpHash_binds_all_fields (keccak : List Nat → List Nat)
    (hinj : Function.Injective keccak)
    (hlen : ∀ x, (keccak x).length = 32) (op1 op2 : HexUserOp)
    (hb1 : FieldsBounded op1) (hb2 : FieldsBounded op2)
    (hdiff : decodedCoreFields op1 ≠ decodedCoreFields op2) :
    computeUserOpHash keccak op1 ≠ computeUserOpHash keccak op2 := by
  intro h
  apply hdiff
  apply packUserOp_inj keccak hinj hlen hb1 hb2
  simp only [computeUserOpHash] at h
  have h2 := hinj h
  have h3 := (List.append_inj h2 (by simp [beBytes_length, hlen])).1
  have h4 := (List.append_inj h3 (by simp [hlen])).1
  exact hinj h4

/-- Witness for C9 at the sample operation and its `callData`-flipped
variant. -/
theorem computeUserOpHash_binds_all_fields_witness :
    computeUserOpHash testKeccak sampleUserOp ≠
      computeUserOpHash testKeccak sampleUserOpFlipped :=
  computeUserOpHash_binds_all_fields testKeccak testKeccak_inj
    testKeccak_length sampleUserOp sampleUserOpFlipped (by decide)
    (by decide) (by decide)

/-- C10: the sponsorship client validates nothing about the paymaster
response: any payload the transport returns without raising (including the
empty byte string) is attached verbatim and the call succeeds, and only a
raised transport error makes the call fail. -/
theorem addPaymaster_no_validation {ε : Type} :
    (∀ (userOp : HexUserOp)
       (rpcRequest : PaymasterRequest → Except ε (List Char))
       (resp : List Char),
       rpcRequest (paymasterRequestFor userOp) = .ok resp →
       addPaymasterAndDataToUserOp userOp rpcRequest =
         .ok { userOp with paymasterAndData := resp }) ∧
    (∀ (userOp : HexUserOp)
       (rpcRequest : PaymasterRequest → Except ε (List Char)) (e : ε),
       rpcRequest (paymasterRequestFor userOp) = .error e →
       addPaymasterAndDataToUserOp userOp rpcRequest = .error e) := by
  constructor
  · intro userOp rpcRequest resp h
    simp [addPaymasterAndDataToUserOp, h]
  · intro userOp rpcRequest e h
    simp [addPaymasterAndDataToUserOp, h]

/-- Witness for C10: the empty payload `0x` is attached verbatim and
accepted, and a raising transport propagates its error. -/
theorem addPaymaster_no_validation_witness :
    addPaymasterAndDataToUserOp sampleUserOpNoGas sampleTransportEmpty =
      .ok { sampleUserOpNoGas with paymasterAndData := "0x".data } ∧
    addPaymasterAndDataToUserOp sampleUserOpNoGas sampleTransportFail =
      .error () :=
  ⟨addPaymaster_no_validation.1 sampleUserOpNoGas sampleTransportEmpty
      "0x".data rfl,
   addPaymaster_no_validation.2 sampleUserOpNoGas sampleTransportFail
      () rfl⟩
